import Mathlib

/-!
Verification development for the species record-management UI.

The definitions below are a shallow embedding of the two source files:
  src/app/species/species-details-dialog.tsx  (the record editor)
  src/app/users/page.tsx                      (the profiles list view)

JavaScript numbers occurring in the form are modelled as rationals (ℚ),
with NaN as an explicit extra value where the form can produce it.
Fallible validation is modelled with Option.
-/

/-- The six-value kingdom enumeration, from the zod enum
z.enum(["Animalia", "Plantae", "Fungi", "Protista", "Archaea", "Bacteria"]). -/
inductive Kingdom where
  | Animalia | Plantae | Fungi | Protista | Archaea | Bacteria
deriving DecidableEq, Repr

def kingdomToString : Kingdom → String
  | Kingdom.Animalia => "Animalia"
  | Kingdom.Plantae => "Plantae"
  | Kingdom.Fungi => "Fungi"
  | Kingdom.Protista => "Protista"
  | Kingdom.Archaea => "Archaea"
  | Kingdom.Bacteria => "Bacteria"

/-- Parsing of the kingdom enum, mirroring kingdoms.parse: exactly the six
fixed strings are accepted. -/
def parseKingdom : String → Option Kingdom
  | "Animalia" => some Kingdom.Animalia
  | "Plantae" => some Kingdom.Plantae
  | "Fungi" => some Kingdom.Fungi
  | "Protista" => some Kingdom.Protista
  | "Archaea" => some Kingdom.Archaea
  | "Bacteria" => some Kingdom.Bacteria
  | _ => none

/-- A JavaScript number as it can occur in the total_population form field:
either NaN or a (rational-valued) number. -/
inductive JSNum where
  | nan : JSNum
  | val : Rat → JSNum
deriving DecidableEq, Repr

/-- A species row, Database["public"]["Tables"]["species"]["Row"]: the fields
used by the component. Numeric columns are modelled as ℚ (JS numbers). -/
structure Species where
  id : String
  scientific_name : String
  common_name : Option String
  kingdom : Kingdom
  total_population : Option Rat
  image : Option String
  description : Option String
  endangered : Option Bool
  author : String
deriving DecidableEq, Repr

/-- The live react-hook-form field values for the species form: the raw input
that zodResolver validates on submit. The kingdom select stores a string; the
total_population number field stores a JS number or null. -/
structure RawForm where
  scientific_name : String
  common_name : Option String
  kingdom : String
  total_population : Option JSNum
  image : Option String
  description : Option String
  endangered : Bool
deriving DecidableEq, Repr

/-- FormData = z.infer of speciesSchema: the validated, transformed output. -/
structure FormData where
  scientific_name : String
  common_name : Option String
  kingdom : Kingdom
  total_population : Option Rat
  image : Option String
  description : Option String
  endangered : Bool
deriving DecidableEq, Repr

/-- Whitespace trimming on a character list: JavaScript's
String.prototype.trim removes leading and trailing whitespace. -/
def trimChars (cs : List Char) : List Char :=
  ((cs.dropWhile Char.isWhitespace).reverse.dropWhile Char.isWhitespace).reverse

/-- String.prototype.trim, written over the character list so that it reduces
inside the kernel. -/
def strTrim (s : String) : String :=
  String.mk (trimChars s.data)

/-- The blank-to-null transform used for common_name, image and description:
(val) => (!val || val.trim() === "" ? null : val.trim()).
For a JS string val, !val holds exactly for null and "". -/
def blankToNull : Option String → Option String
  | none => none
  | some s => if s = "" ∨ strTrim s = "" then none else some (strTrim s)

/-- scientific_name: z.string().trim().min(1).transform((val) => val?.trim()). -/
def parseScientificName (s : String) : Option String :=
  let t := strTrim s
  if 1 ≤ t.length then some (strTrim t) else none

/-- common_name: z.string().nullable().transform(blank-to-null). Never fails. -/
def parseCommonName (v : Option String) : Option (Option String) :=
  some (blankToNull v)

/-- description: z.string().nullable().transform(blank-to-null). Never fails. -/
def parseDescription (v : Option String) : Option (Option String) :=
  some (blankToNull v)

/-- Modelled from the spec: "image, if present, a syntactically valid URL".
The zod library implementing z.string().url() (a WHATWG URL parse attempt) is
not under src/. A string is modelled as a valid URL when, after trimming, it
consists of a nonempty alphabetic scheme, a colon, and a nonempty remainder.
In particular the empty string and whitespace-only strings are not valid URLs,
as with new URL(). -/
def isValidURL (s : String) : Bool :=
  match (strTrim s).data.span (fun c => !(c == ':')) with
  | (scheme, ':' :: rest) =>
      !scheme.isEmpty && scheme.all Char.isAlpha && !rest.isEmpty
  | _ => false

/-- image: z.string().url().nullable().transform(blank-to-null). The url()
check runs on every non-null string before the transform is reached. -/
def parseImage (v : Option String) : Option (Option String) :=
  match v with
  | none => some (blankToNull none)
  | some s => if isValidURL s then some (blankToNull (some s)) else none

/-- total_population: z.number().int().positive().min(1).nullable().
z.number() rejects NaN; int() requires an integral value; positive() requires
it be strictly greater than 0; min(1) requires it be at least 1. -/
def parseTotalPopulation : Option JSNum → Option (Option Rat)
  | none => some none
  | some JSNum.nan => none
  | some (JSNum.val q) =>
      if q.den = 1 ∧ 0 < q ∧ 1 ≤ q then some (some q) else none

/-- speciesSchema.parse on the form's raw values: every field validator must
succeed, and the transformed fields are assembled into the FormData output.
z.boolean() on the endangered field is the identity on booleans. -/
def speciesSchemaParse (r : RawForm) : Option FormData := do
  let sn ← parseScientificName r.scientific_name
  let cn ← parseCommonName r.common_name
  let k ← parseKingdom r.kingdom
  let tp ← parseTotalPopulation r.total_population
  let img ← parseImage r.image
  let desc ← parseDescription r.description
  pure { scientific_name := sn, common_name := cn, kingdom := k,
         total_population := tp, image := img, description := desc,
         endangered := r.endangered }

/-- The JSON value of one field in the serialized update payload. -/
inductive JsonVal where
  | str : String → JsonVal
  | num : Rat → JsonVal
  | bool : Bool → JsonVal
  | null : JsonVal
deriving DecidableEq, Repr

def optStrVal : Option String → JsonVal
  | none => JsonVal.null
  | some s => JsonVal.str s

def optNumVal : Option Rat → JsonVal
  | none => JsonVal.null
  | some q => JsonVal.num q

/-- The serialized body of supabase.from("species").update(input): the own
enumerable keys of the FormData object, in declaration order. -/
def payloadFields (d : FormData) : List (String × JsonVal) :=
  [("scientific_name", JsonVal.str d.scientific_name),
   ("common_name", optStrVal d.common_name),
   ("kingdom", JsonVal.str (kingdomToString d.kingdom)),
   ("total_population", optNumVal d.total_population),
   ("image", optStrVal d.image),
   ("description", optStrVal d.description),
   ("endangered", JsonVal.bool d.endangered)]

/-- An update request: supabase.from(table).update(payload).eq(keyField, keyValue). -/
structure UpdateRequest where
  table : String
  keyField : String
  keyValue : String
  payload : FormData
deriving DecidableEq, Repr

def speciesUpdateRequest (id : String) (d : FormData) : UpdateRequest :=
  { table := "species", keyField := "id", keyValue := id, payload := d }

/-- The effect of the row-level update on the database row: the seven payload
columns are overwritten, id and author are untouched. -/
def applyUpdate (row : Species) (d : FormData) : Species :=
  { row with scientific_name := d.scientific_name,
             common_name := d.common_name,
             kingdom := d.kingdom,
             total_population := d.total_population,
             image := d.image,
             description := d.description,
             endangered := some d.endangered }

/-- The defaultValues object computed from the species prop (lines 61-69):
endangered falls back to false when the column is null. -/
def defaultValues (species : Species) : RawForm :=
  { scientific_name := species.scientific_name,
    common_name := species.common_name,
    kingdom := kingdomToString species.kingdom,
    total_population := species.total_population.map JSNum.val,
    image := species.image,
    description := species.description,
    endangered := species.endangered.getD false }

/-- Conversion of validated FormData back into form field values, as done by
form.reset(input) after a successful submit. -/
def formDataToRaw (d : FormData) : RawForm :=
  { scientific_name := d.scientific_name,
    common_name := d.common_name,
    kingdom := kingdomToString d.kingdom,
    total_population := d.total_population.map JSNum.val,
    image := d.image,
    description := d.description,
    endangered := d.endangered }

/-- Observable effects of one interaction with the dialog, in program order. -/
inductive Effect where
  | confirmPrompt : String → Effect
  | updateReq : UpdateRequest → Effect
  | deleteRow : String → String → String → Effect
  | setEditing : Bool → Effect
  | formReset : RawForm → Effect
  | routerRefresh : Effect
  | toast : String → String → Bool → Effect
deriving DecidableEq, Repr

/-- The component's state together with its environment: the species prop, the
database row behind it, the react-hook-form values and reset baseline, and a
ghost field lastSaved holding the last-saved baseline in the sense of the spec
(the values most recently confirmed by a successful submit, initially the
record's initial values). lastSaved is written nowhere except the
successful-submit branch of onSubmit. -/
structure Model where
  currentUser : String
  species : Species
  db : Species
  isEditing : Bool
  values : RawForm
  baseline : RawForm
  lastSaved : RawForm
deriving DecidableEq, Repr

/-- Initial model: the dialog as first rendered for a fetched row. -/
def initModel (sp : Species) (u : String) : Model :=
  { currentUser := u, species := sp, db := sp, isEditing := false,
    values := defaultValues sp, baseline := defaultValues sp,
    lastSaved := defaultValues sp }

/-- Modelled from the spec: router.refresh() "triggers a reload of the entire
enclosing route's data". The parent page that fetches the species row and
passes it as the species prop is not under src/, so the refreshed prop is
modelled as the current database row. -/
def refreshProp (m : Model) : Model :=
  { m with species := m.db }

/-- handleCancel (lines 111-118): a confirm prompt; on refusal nothing happens;
on confirmation form.reset(defaultValues) and setIsEditing(false). -/
def handleCancel (m : Model) (confirmed : Bool) : Model × List Effect :=
  if confirmed then
    ({ m with values := defaultValues m.species,
              baseline := defaultValues m.species,
              isEditing := false },
     [Effect.confirmPrompt "Revert all unsaved changes?",
      Effect.formReset (defaultValues m.species),
      Effect.setEditing false])
  else
    (m, [Effect.confirmPrompt "Revert all unsaved changes?"])

/-- onSubmit (lines 78-104), reached with the validated FormData. The update
request is issued; on error a destructive toast and nothing else; on success
setIsEditing(false), form.reset(input), router.refresh(), success toast, in
that order. dbError is the error outcome returned by the data store. -/
def onSubmit (m : Model) (fd : FormData) (dbError : Option String) :
    Model × List Effect :=
  match dbError with
  | some msg =>
      (m, [Effect.updateReq (speciesUpdateRequest m.species.id fd),
           Effect.toast "Something went wrong." msg true])
  | none =>
      (refreshProp
        { m with isEditing := false,
                 values := formDataToRaw fd,
                 baseline := formDataToRaw fd,
                 lastSaved := formDataToRaw fd,
                 db := applyUpdate m.db fd },
       [Effect.updateReq (speciesUpdateRequest m.species.id fd),
        Effect.setEditing false,
        Effect.formReset (formDataToRaw fd),
        Effect.routerRefresh,
        Effect.toast "Changes Saved!"
          ("Saved your changes to " ++ fd.scientific_name) false])

/-- handleDelete (lines 121-147): confirm prompt; on confirmation a delete
request keyed by id; error toast on failure; refresh and success toast on
success. -/
def handleDelete (m : Model) (confirmed : Bool) (dbError : Option String) :
    Model × List Effect :=
  if confirmed then
    match dbError with
    | some msg =>
        (m, [Effect.confirmPrompt "Delete the species?",
             Effect.deleteRow "species" "id" m.species.id,
             Effect.toast "Something went wrong." msg true])
    | none =>
        (refreshProp m,
         [Effect.confirmPrompt "Delete the species?",
          Effect.deleteRow "species" "id" m.species.id,
          Effect.routerRefresh,
          Effect.toast "Species Deleted!"
            "Your card has been successfully deleted" false])
  else
    (m, [Effect.confirmPrompt "Delete the species?"])

/-- The action buttons rendered by the dialog. -/
inductive Control where
  | edit | delete | confirm | cancel
deriving DecidableEq, Repr

/-- Lines 315-351: the button row is rendered only when
currentUser === species.author; while editing it holds Confirm and Cancel,
otherwise Edit species and Delete. -/
def renderedControls (u : String) (sp : Species) (isEditing : Bool) :
    List Control :=
  if u = sp.author then
    (if isEditing then [Control.confirm, Control.cancel]
     else [Control.edit, Control.delete])
  else []

/-- User interactions with the dialog. editFields stands for any sequence of
keystrokes in the (editable) inputs; submit and deleteAction carry the error
outcome the data store returns for the request they issue. -/
inductive Event where
  | startEdit : Event
  | editFields : RawForm → Event
  | cancel : Bool → Event
  | submit : Option String → Event
  | deleteAction : Bool → Option String → Event
deriving DecidableEq, Repr

/-- One interaction step. Each handler is guarded by the rendering conditions
of the control that triggers it (author gate at line 315, isEditing branch at
line 317); field edits are guarded by readOnly={!isEditing}; submit first runs
zodResolver validation and does not reach onSubmit on invalid values. -/
def step (m : Model) : Event → Model × List Effect
  | Event.startEdit =>
      if m.currentUser = m.species.author ∧ m.isEditing = false then
        ({ m with isEditing := true }, [])
      else (m, [])
  | Event.editFields v =>
      if m.isEditing = true then ({ m with values := v }, []) else (m, [])
  | Event.cancel confirmed =>
      if m.currentUser = m.species.author ∧ m.isEditing = true then
        handleCancel m confirmed
      else (m, [])
  | Event.submit dbError =>
      if m.currentUser = m.species.author ∧ m.isEditing = true then
        match speciesSchemaParse m.values with
        | none => (m, [])
        | some fd => onSubmit m fd dbError
      else (m, [])
  | Event.deleteAction confirmed dbError =>
      if m.currentUser = m.species.author ∧ m.isEditing = false then
        handleDelete m confirmed dbError
      else (m, [])

/-- Running a sequence of events from a model. -/
def run (m : Model) : List Event → Model
  | [] => m
  | e :: es => run (step m e).1 es

/-- All effects emitted along a sequence of events. -/
def runEffects (m : Model) : List Event → List Effect
  | [] => []
  | e :: es => (step m e).2 ++ runEffects (step m e).1 es

/-- The update requests among a list of effects. -/
def mutationRequests (effs : List Effect) : List UpdateRequest :=
  effs.filterMap fun e =>
    match e with
    | Effect.updateReq r => some r
    | _ => none

/-- Numeric value of a list of decimal digit characters. -/
def natOfDigits (cs : List Char) : Nat :=
  cs.foldl (fun a c => a * 10 + (c.toNat - 48)) 0

def isDigitSeq (cs : List Char) : Bool :=
  !cs.isEmpty && cs.all Char.isDigit

/-- Mantissa of an HTML valid floating-point number: digits, or digits "." digits,
or "." digits. -/
def parseMantissa (cs : List Char) : Option Rat :=
  match cs.span Char.isDigit with
  | (intPart, rest) =>
    match rest with
    | [] =>
        if intPart.isEmpty then none
        else some ((natOfDigits intPart : Nat) : Rat)
    | '.' :: frac =>
        if frac.isEmpty ∨ ¬(frac.all Char.isDigit) then none
        else some ((natOfDigits intPart : Rat) +
                   (natOfDigits frac : Rat) / ((10 : Rat) ^ frac.length))
    | _ => none

/-- Splitting at the first exponent marker e or E, when present. -/
def splitExp (cs : List Char) : List Char × Option (List Char) :=
  match cs.span (fun c => !(c == 'e' || c == 'E')) with
  | (m, []) => (m, none)
  | (m, _ :: rest) => (m, some rest)

/-- Exponent part: optional sign followed by digits. -/
def parseExpPart : List Char → Option Int
  | '+' :: ds => if isDigitSeq ds then some ((natOfDigits ds : Nat) : Int) else none
  | '-' :: ds => if isDigitSeq ds then some (-((natOfDigits ds : Nat) : Int)) else none
  | ds => if isDigitSeq ds then some ((natOfDigits ds : Nat) : Int) else none

def applyExp (q : Rat) (e : Int) : Rat :=
  if 0 ≤ e then q * (10 : Rat) ^ e.toNat else q / (10 : Rat) ^ (-e).toNat

def parseNumberTextUnsigned (cs : List Char) : Option Rat :=
  match splitExp cs with
  | (m, none) => parseMantissa m
  | (m, some ecs) => do
      let q ← parseMantissa m
      let e ← parseExpPart ecs
      pure (applyExp q e)

/-- A valid floating-point number string, optionally negated. -/
def parseNumberText : List Char → Option Rat
  | '-' :: body => (parseNumberTextUnsigned body).map (fun q => -q)
  | body => parseNumberTextUnsigned body

/-- JavaScript unary plus (+event.target.value) on the text values an HTML
number input can hold: the empty string (and whitespace-only text, which JS
StringToNumber trims away) coerces to the number 0; a valid floating-point
string coerces to its numeric value; any other text is NaN (a number input
sanitizes such text to "", so that case is unreachable from the UI). -/
def jsPlus (s : String) : JSNum :=
  if strTrim s = "" then JSNum.val 0
  else
    match parseNumberText (strTrim s).data with
    | some q => JSNum.val q
    | none => JSNum.nan

/-- The total_population change handler (lines 235-241):
onChange={(event) => field.onChange(+event.target.value)}. The field is set to
the coerced number; it is never set to null. -/
def totalPopulationOnChange (text : String) : Option JSNum :=
  some (jsPlus text)

/-- A profiles row as rendered by the users list. -/
structure Profile where
  id : String
  display_name : Option String
  email : Option String
  biography : Option String
deriving DecidableEq, Repr

/-- An item in the rendered users list: one card per profile row, or the
fallback paragraph. -/
inductive UsersItem where
  | profileCard : Profile → UsersItem
  | fallbackText : String → UsersItem
deriving DecidableEq, Repr

/-- Lines 26-47 of src/app/users/page.tsx: profiles?.length > 0 renders one
card per row, anything else (including a null data result from a failed
fetch) renders the fallback paragraph. -/
def renderProfileList (profiles : Option (List Profile)) : List UsersItem :=
  match profiles with
  | some ps =>
      if ps.length > 0 then ps.map UsersItem.profileCard
      else [UsersItem.fallbackText "No profiles found."]
  | none => [UsersItem.fallbackText "No profiles found."]

def cardCount (items : List UsersItem) : Nat :=
  (items.filter fun i =>
    match i with
    | UsersItem.profileCard _ => true
    | _ => false).length

/-- A session, as returned by supabase.auth.getSession. -/
structure Session where
  userId : String
deriving DecidableEq, Repr

/-- The observable actions of the UsersList server component, in order. -/
inductive PageAction where
  | redirect : String → PageAction
  | fetchRows : String → String → Bool → PageAction
  | renderItems : List UsersItem → PageAction
deriving DecidableEq, Repr

/-- UsersList (src/app/users/page.tsx lines 7-50): without a session the
component redirects to "/" and does nothing else; with a session it fetches
all profiles rows ordered by "id" with ascending: false and renders them. -/
def usersListPage (session : Option Session) (fetched : Option (List Profile)) :
    List PageAction :=
  match session with
  | none => [PageAction.redirect "/"]
  | some _ =>
      [PageAction.fetchRows "profiles" "id" false,
       PageAction.renderItems (renderProfileList fetched)]

/-- A concrete species row used to instantiate theorems with hypotheses. -/
def spLion : Species :=
  { id := "sp-1", scientific_name := "Panthera leo", common_name := some "Lion",
    kingdom := Kingdom.Animalia, total_population := some 20000,
    image := some "https://example.com/lion.jpg",
    description := some "Big cat", endangered := some false, author := "user-1" }

/-- The validated output of the species form on spLion's default values. -/
def fdLion : FormData :=
  { scientific_name := "Panthera leo", common_name := some "Lion",
    kingdom := Kingdom.Animalia, total_population := some 20000,
    image := some "https://example.com/lion.jpg",
    description := some "Big cat", endangered := false }

/-- The dialog for spLion, opened by its author, in the Editing state. -/
def mEditing : Model :=
  { initModel spLion "user-1" with isEditing := true }

/-- The editing dialog with total_population cleared through the number field
(the change handler turned the empty text into the number 0). -/
def mTpZero : Model :=
  { mEditing with
    values := { defaultValues spLion with total_population := some (JSNum.val 0) } }

/-- A raw form identical to spLion's defaults except that the image field was
blanked out by the user. -/
def rawBlankImage : RawForm :=
  { defaultValues spLion with image := some "" }

/-- Invariant of every reachable dialog state: the react-hook-form baseline,
the defaultValues recomputed from the species prop, and the defaultValues of
the database row all coincide with the ghost last-saved baseline, and the
Editing state can only be held by the record's author. -/
structure EditorInv (m : Model) : Prop where
  baseEq : m.baseline = m.lastSaved
  propEq : defaultValues m.species = m.lastSaved
  dbEq : defaultValues m.db = m.lastSaved
  authOfEdit : m.isEditing = true → m.currentUser = m.species.author

theorem cardCount_map (l : List Profile) :
    cardCount (l.map UsersItem.profileCard) = l.length := by
  induction l with
  | nil => rfl
  | cons a l ih => simpa [cardCount, List.filter] using ih

theorem foldl_population_some (ts : List String) (w : JSNum) :
    List.foldl (fun _ s => totalPopulationOnChange s) (some w) ts ≠ none := by
  induction ts generalizing w with
  | nil => simp
  | cons t ts ih =>
      simpa [List.foldl, totalPopulationOnChange] using ih (jsPlus t)

/-- C6: a blank image input is not normalized to null by the species form
validation; it is rejected outright, because z.string().url() runs before the
blank-to-null transform and the empty string is not a valid URL. The same raw
form with a null image is accepted, with image null in the output. This
contradicts the claim (and the code's own comment on the image field). -/
theorem blank_image_input_is_rejected :
    rawBlankImage.image = some "" ∧
    speciesSchemaParse rawBlankImage = none ∧
    speciesSchemaParse { rawBlankImage with image := none } =
      some { fdLion with image := none } ∧
    speciesSchemaParse { rawBlankImage with common_name := some "  " } = none ∧
    blankToNull (some "  ") = none := by
  refine ⟨rfl, by decide, by decide, by decide, by decide⟩

/-- C7: the total_population validator accepts exactly null and the positive
integers, and a form whose total_population field fails this validator never
reaches onSubmit: the submit step issues no request and no effect at all. -/
theorem population_validation_iff :
    (∀ v : Option JSNum,
      (parseTotalPopulation v).isSome = true ↔
        (v = none ∨ ∃ n : Int, 0 < n ∧ v = some (JSNum.val (n : Rat)))) ∧
    (∀ (m : Model) (err : Option String),
      parseTotalPopulation m.values.total_population = none →
      step m (Event.submit err) = (m, [])) := by
  constructor
  · intro v
    cases v with
    | none => simp [parseTotalPopulation]
    | some j =>
      cases j with
      | nan => simp [parseTotalPopulation]
      | val q =>
        simp only [parseTotalPopulation]
        split
        · rename_i hcond
          obtain ⟨hden, hpos, _⟩ := hcond
          simp only [Option.isSome_some, true_iff]
          refine Or.inr ⟨q.num, Rat.num_pos.mpr hpos, ?_⟩
          rw [(Rat.den_eq_one_iff q).mp hden]
        · rename_i hcond
          simp only [Option.isSome_none, Bool.false_eq_true, false_iff]
          rintro (h | ⟨n, hn, heq⟩)
          · exact Option.noConfusion h
          · apply hcond
            obtain rfl : q = (n : Rat) := by
              injection heq with h1
              injection h1
            exact ⟨Rat.intCast_den n, by exact_mod_cast hn, by exact_mod_cast hn⟩
  · intro m err hnone
    have hp : speciesSchemaParse m.values = none := by
      simp only [speciesSchemaParse, Option.bind_eq_bind]
      cases parseScientificName m.values.scientific_name <;>
        cases parseKingdom m.values.kingdom <;>
          simp [parseCommonName, hnone]
    simp only [step]
    split
    · rw [hp]
    · rfl

/-- C7 witness: with total_population cleared to the number 0, the submit step
is a no-op, and 0 is rejected by the field validator. -/
theorem population_validation_iff_witness :
    step mTpZero (Event.submit none) = (mTpZero, []) :=
  population_validation_iff.2 mTpZero none (by decide)

/-- C10: in the total_population number field, a change event with empty text
sets the field to the number 0 (unary-plus coercion), validation rejects 0,
and no change event through this field can ever set the field back to null:
any nonempty sequence of inputs leaves a non-null value in the field. -/
theorem population_empty_text_becomes_zero :
    totalPopulationOnChange "" = some (JSNum.val 0) ∧
    parseTotalPopulation (totalPopulationOnChange "") = none ∧
    (∀ s : String, totalPopulationOnChange s ≠ none) ∧
    (∀ (t : String) (ts : List String) (v : Option JSNum),
      List.foldl (fun _ s => totalPopulationOnChange s) v (t :: ts) ≠ none) := by
  refine ⟨by decide, by decide, fun s => by simp [totalPopulationOnChange], ?_⟩
  intro t ts v
  simpa [List.foldl, totalPopulationOnChange] using
    foldl_population_some ts (jsPlus t)

/-- C8: an absent or empty profiles result renders exactly the fallback text
"No profiles found." and zero profile cards; a non-empty result renders one
card per row and no fallback text. -/
theorem profiles_list_rendering (profiles : Option (List Profile)) :
    ((profiles = none ∨ profiles = some []) →
      renderProfileList profiles = [UsersItem.fallbackText "No profiles found."] ∧
      cardCount (renderProfileList profiles) = 0) ∧
    (∀ ps : List Profile, profiles = some ps → ps ≠ [] →
      renderProfileList profiles = ps.map UsersItem.profileCard ∧
      cardCount (renderProfileList profiles) = ps.length ∧
      ∀ t : String, UsersItem.fallbackText t ∉ renderProfileList profiles) := by
  constructor
  · rintro (rfl | rfl) <;> simp [renderProfileList, cardCount]
  · rintro ps rfl hne
    have hlen : 0 < ps.length := List.length_pos.mpr hne
    have hrender : renderProfileList (some ps) = ps.map UsersItem.profileCard := by
      simp [renderProfileList, hlen]
    refine ⟨hrender, ?_, ?_⟩
    · rw [hrender, cardCount_map]
    · intro t
      rw [hrender]
      simp

/-- C8 witness: the absent result renders the fallback alone. -/
theorem profiles_list_rendering_witness :
    renderProfileList none = [UsersItem.fallbackText "No profiles found."] ∧
    cardCount (renderProfileList none) = 0 :=
  (profiles_list_rendering none).1 (Or.inl rfl)

/-- C9: without a session the users page redirects to the application root and
issues no profiles fetch; with a session it fetches the profiles rows ordered
by id descending (ascending: false) before rendering, and does not redirect. -/
theorem users_page_session_gate (session : Option Session)
    (fetched : Option (List Profile)) :
    (session = none →
      usersListPage session fetched = [PageAction.redirect "/"] ∧
      ∀ (t o : String) (a : Bool),
        PageAction.fetchRows t o a ∉ usersListPage session fetched) ∧
    (∀ s : Session, session = some s →
      usersListPage session fetched =
        [PageAction.fetchRows "profiles" "id" false,
         PageAction.renderItems (renderProfileList fetched)] ∧
      PageAction.redirect "/" ∉ usersListPage session fetched) := by
  constructor
  · rintro rfl
    exact ⟨rfl, by intro t o a; simp [usersListPage]⟩
  · rintro s rfl
    exact ⟨rfl, by simp [usersListPage]⟩

/-- C9 witness: the unauthenticated page is exactly one redirect action. -/
theorem users_page_session_gate_witness :
    usersListPage none none = [PageAction.redirect "/"] ∧
    ∀ (t o : String) (a : Bool),
      PageAction.fetchRows t o a ∉ usersListPage none none :=
  (users_page_session_gate none none).1 rfl

/-- C2: when the update request of a validated submit returns an error, the
only effects are the request itself and a destructive toast carrying the
backend's error message, and the component state — Editing flag, form values,
baseline, species prop and database row — is exactly unchanged. -/
theorem submit_error_is_atomic (m : Model) (msg : String) (fd : FormData)
    (hauth : m.currentUser = m.species.author) (hedit : m.isEditing = true)
    (hparse : speciesSchemaParse m.values = some fd) :
    step m (Event.submit (some msg)) =
      (m, [Effect.updateReq (speciesUpdateRequest m.species.id fd),
           Effect.toast "Something went wrong." msg true]) := by
  simp only [step, hparse]
  rw [if_pos ⟨hauth, hedit⟩]
  rfl

/-- C2 witness: an errored submit of the editing dialog leaves its state
untouched and surfaces the destructive toast. -/
theorem submit_error_is_atomic_witness :
    step mEditing (Event.submit (some "db down")) =
      (mEditing, [Effect.updateReq (speciesUpdateRequest mEditing.species.id fdLion),
                  Effect.toast "Something went wrong." "db down" true]) :=
  submit_error_is_atomic mEditing "db down" fdLion (by decide) (by decide) (by decide)

/-- C3: a successful validated submit leaves Editing (back to Viewing), resets
the form values and baseline to exactly the submitted validated values, and
its effects after the update request are, in program order: setIsEditing(false),
form.reset(input), router.refresh(), success toast. -/
theorem submit_success_effect_order (m : Model) (fd : FormData)
    (hauth : m.currentUser = m.species.author) (hedit : m.isEditing = true)
    (hparse : speciesSchemaParse m.values = some fd) :
    (step m (Event.submit none)).1.isEditing = false ∧
    (step m (Event.submit none)).1.baseline = formDataToRaw fd ∧
    (step m (Event.submit none)).1.values = formDataToRaw fd ∧
    (step m (Event.submit none)).2 =
      [Effect.updateReq (speciesUpdateRequest m.species.id fd),
       Effect.setEditing false,
       Effect.formReset (formDataToRaw fd),
       Effect.routerRefresh,
       Effect.toast "Changes Saved!"
         ("Saved your changes to " ++ fd.scientific_name) false] := by
  simp only [step, hparse]
  rw [if_pos ⟨hauth, hedit⟩]
  exact ⟨rfl, rfl, rfl, rfl⟩

/-- C3 witness: a successful submit of the editing dialog. -/
theorem submit_success_effect_order_witness :
    (step mEditing (Event.submit none)).1.isEditing = false ∧
    (step mEditing (Event.submit none)).1.baseline = formDataToRaw fdLion ∧
    (step mEditing (Event.submit none)).1.values = formDataToRaw fdLion ∧
    (step mEditing (Event.submit none)).2 =
      [Effect.updateReq (speciesUpdateRequest mEditing.species.id fdLion),
       Effect.setEditing false,
       Effect.formReset (formDataToRaw fdLion),
       Effect.routerRefresh,
       Effect.toast "Changes Saved!"
         ("Saved your changes to " ++ fdLion.scientific_name) false] :=
  submit_success_effect_order mEditing fdLion (by decide) (by decide) (by decide)

/-- C4: the one update request a validated submit issues (whatever the
outcome) targets the species table keyed by id = species.id, its payload is
exactly the seven validated schema fields in order, the payload carries no id
and no author key, and the row-level update leaves the row's id and author
columns unchanged. -/
theorem update_request_shape (m : Model) (err : Option String) (fd : FormData)
    (hauth : m.currentUser = m.species.author) (hedit : m.isEditing = true)
    (hparse : speciesSchemaParse m.values = some fd) :
    mutationRequests (step m (Event.submit err)).2 =
      [speciesUpdateRequest m.species.id fd] ∧
    (speciesUpdateRequest m.species.id fd).table = "species" ∧
    (speciesUpdateRequest m.species.id fd).keyField = "id" ∧
    (speciesUpdateRequest m.species.id fd).keyValue = m.species.id ∧
    (speciesUpdateRequest m.species.id fd).payload = fd ∧
    (payloadFields fd).map Prod.fst =
      ["scientific_name", "common_name", "kingdom", "total_population",
       "image", "description", "endangered"] ∧
    "id" ∉ (payloadFields fd).map Prod.fst ∧
    "author" ∉ (payloadFields fd).map Prod.fst ∧
    (applyUpdate m.db fd).id = m.db.id ∧
    (applyUpdate m.db fd).author = m.db.author := by
  refine ⟨?_, rfl, rfl, rfl, rfl, rfl, by simp [payloadFields], by simp [payloadFields], rfl, rfl⟩
  simp only [step, hparse]
  rw [if_pos ⟨hauth, hedit⟩]
  cases err <;> rfl

/-- C4 witness: the request issued by the editing dialog's submit. -/
theorem update_request_shape_witness :
    mutationRequests (step mEditing (Event.submit none)).2 =
      [speciesUpdateRequest mEditing.species.id fdLion] :=
  (update_request_shape mEditing none fdLion (by decide) (by decide) (by decide)).1

theorem defaultValues_applyUpdate (row : Species) (d : FormData) :
    defaultValues (applyUpdate row d) = formDataToRaw d := rfl

theorem step_noauth (m : Model) (e : Event)
    (hne : m.currentUser ≠ m.species.author) (hview : m.isEditing = false) :
    step m e = (m, []) := by
  cases e with
  | startEdit =>
      simp only [step]; rw [if_neg (fun hg => hne hg.1)]
  | editFields v =>
      simp only [step]; rw [if_neg (by simp [hview])]
  | cancel c =>
      simp only [step]; rw [if_neg (fun hg => hne hg.1)]
  | submit err =>
      simp only [step]; rw [if_neg (fun hg => hne hg.1)]
  | deleteAction c err =>
      simp only [step]; rw [if_neg (fun hg => hne hg.1)]

theorem run_noauth (sp : Species) (u : String) (hne : u ≠ sp.author)
    (evs : List Event) :
    run (initModel sp u) evs = initModel sp u ∧
    runEffects (initModel sp u) evs = [] := by
  induction evs with
  | nil => exact ⟨rfl, rfl⟩
  | cons e es ih =>
      have hstep : step (initModel sp u) e = (initModel sp u, []) :=
        step_noauth _ e hne rfl
      constructor
      · show run (step (initModel sp u) e).1 es = initModel sp u
        rw [hstep]; exact ih.1
      · show (step (initModel sp u) e).2 ++
            runEffects (step (initModel sp u) e).1 es = []
        rw [hstep]; simpa using ih.2

/-- C5: when the session user is not the record's author, no edit, delete,
confirm or cancel control is rendered (the control row renders exactly when
the user equals the author), and from the initial dialog state no sequence of
events changes the state or emits any effect — in particular no update and no
delete request can ever be issued. -/
theorem author_gate (u : String) (sp : Species) (hne : u ≠ sp.author) :
    (∀ b : Bool, renderedControls u sp b = []) ∧
    (∀ (u' : String) (sp' : Species) (b : Bool),
      renderedControls u' sp' b ≠ [] ↔ u' = sp'.author) ∧
    (∀ evs : List Event, run (initModel sp u) evs = initModel sp u) ∧
    (∀ evs : List Event, runEffects (initModel sp u) evs = []) ∧
    (∀ evs : List Event,
      mutationRequests (runEffects (initModel sp u) evs) = []) := by
  refine ⟨?_, ?_, ?_, ?_, ?_⟩
  · intro b; simp [renderedControls, hne]
  · intro u' sp' b
    by_cases h : u' = sp'.author
    · cases b <;> simp [renderedControls, h]
    · simp [renderedControls, h]
  · intro evs; exact (run_noauth sp u hne evs).1
  · intro evs; exact (run_noauth sp u hne evs).2
  · intro evs; rw [(run_noauth sp u hne evs).2]; rfl

/-- C5 witness: a non-author viewer of spLion gets no controls at all. -/
theorem author_gate_witness :
    renderedControls "user-2" spLion true = [] :=
  (author_gate "user-2" spLion (by decide)).1 true

theorem inv_init (sp : Species) (u : String) : EditorInv (initModel sp u) :=
  ⟨rfl, rfl, rfl, fun h => Bool.noConfusion h⟩

theorem inv_step (m : Model) (e : Event) (h : EditorInv m) :
    EditorInv (step m e).1 := by
  obtain ⟨h1, h2, h3, h4⟩ := h
  cases e with
  | startEdit =>
      simp only [step]
      split
      · rename_i hg
        exact ⟨h1, h2, h3, fun _ => hg.1⟩
      · exact ⟨h1, h2, h3, h4⟩
  | editFields v =>
      simp only [step]
      split
      · exact ⟨h1, h2, h3, h4⟩
      · exact ⟨h1, h2, h3, h4⟩
  | cancel c =>
      simp only [step]
      split
      · simp only [handleCancel]
        split
        · exact ⟨h2, h2, h3, fun hh => Bool.noConfusion hh⟩
        · exact ⟨h1, h2, h3, h4⟩
      · exact ⟨h1, h2, h3, h4⟩
  | submit err =>
      simp only [step]
      split
      · cases hp : speciesSchemaParse m.values with
        | none => exact ⟨h1, h2, h3, h4⟩
        | some fd =>
          cases err with
          | some msg => exact ⟨h1, h2, h3, h4⟩
          | none =>
              exact ⟨rfl, defaultValues_applyUpdate m.db fd,
                     defaultValues_applyUpdate m.db fd,
                     fun hh => Bool.noConfusion hh⟩
      · exact ⟨h1, h2, h3, h4⟩
  | deleteAction c err =>
      simp only [step]
      split
      · rename_i hg
        simp only [handleDelete]
        split
        · cases err with
          | some msg => exact ⟨h1, h2, h3, h4⟩
          | none =>
              exact ⟨h1, h3, h3, fun hh => Bool.noConfusion (hg.2 ▸ hh)⟩
        · exact ⟨h1, h2, h3, h4⟩
      · exact ⟨h1, h2, h3, h4⟩

theorem inv_run (m : Model) (evs : List Event) (h : EditorInv m) :
    EditorInv (run m evs) := by
  induction evs generalizing m with
  | nil => exact h
  | cons e es ih => exact ih _ (inv_step m e h)

/-- C1: in any reachable dialog state that is Editing, a cancel whose confirm
prompt is refused leaves the entire state (form values included) unchanged,
and a confirmed cancel returns to Viewing and resets the form values and
baseline to the last-saved baseline lastSaved. The final conjunct pins the
meaning of lastSaved: it starts as the record's initial values and is changed
by nothing except a successful submit, which sets it to the submitted
validated values. -/
theorem cancel_confirmation_semantics (sp : Species) (u : String)
    (evs : List Event)
    (hedit : (run (initModel sp u) evs).isEditing = true) :
    (step (run (initModel sp u) evs) (Event.cancel false)).1 =
      run (initModel sp u) evs ∧
    (step (run (initModel sp u) evs) (Event.cancel true)).1.isEditing = false ∧
    (step (run (initModel sp u) evs) (Event.cancel true)).1.values =
      (run (initModel sp u) evs).lastSaved ∧
    (step (run (initModel sp u) evs) (Event.cancel true)).1.baseline =
      (run (initModel sp u) evs).lastSaved ∧
    (initModel sp u).lastSaved = defaultValues sp ∧
    (∀ (n : Model) (e : Event), (step n e).1.lastSaved ≠ n.lastSaved →
      ∃ fd : FormData, speciesSchemaParse n.values = some fd ∧
        e = Event.submit none ∧
        (step n e).1.lastSaved = formDataToRaw fd) := by
  have hinv := inv_run (initModel sp u) evs (inv_init sp u)
  have hauth := hinv.authOfEdit hedit
  refine ⟨?_, ?_, ?_, ?_, rfl, ?_⟩
  · simp only [step]
    split
    · rfl
    · rfl
  · simp only [step]
    rw [if_pos ⟨hauth, hedit⟩]
    rfl
  · simp only [step]
    rw [if_pos ⟨hauth, hedit⟩]
    exact hinv.propEq
  · simp only [step]
    rw [if_pos ⟨hauth, hedit⟩]
    exact hinv.propEq
  · intro n e hne
    cases e with
    | startEdit =>
        exfalso; apply hne
        simp only [step]; split <;> rfl
    | editFields v =>
        exfalso; apply hne
        simp only [step]; split <;> rfl
    | cancel c =>
        exfalso; apply hne
        simp only [step]; split
        · simp only [handleCancel]; split <;> rfl
        · rfl
    | submit err =>
        simp only [step] at hne ⊢
        by_cases hg : n.currentUser = n.species.author ∧ n.isEditing = true
        · rw [if_pos hg] at hne ⊢
          cases hp : speciesSchemaParse n.values with
          | none => rw [hp] at hne; exact absurd rfl hne
          | some fd =>
              rw [hp] at hne
              cases err with
              | some msg => exact absurd rfl hne
              | none => exact ⟨fd, rfl, rfl, rfl⟩
        · rw [if_neg hg] at hne; exact absurd rfl hne
    | deleteAction c err =>
        exfalso; apply hne
        simp only [step]; split
        · simp only [handleDelete]; split
          · cases err <;> rfl
          · rfl
        · rfl

/-- C1 witness: the author opens spLion's dialog and starts editing; a
confirmed cancel returns it to Viewing. -/
theorem cancel_confirmation_semantics_witness :
    (step (run (initModel spLion "user-1") [Event.startEdit])
      (Event.cancel true)).1.isEditing = false :=
  (cancel_confirmation_semantics spLion "user-1" [Event.startEdit]
    (by decide)).2.1

/-- C10 witness: the empty-text change event concretely stores the number 0. -/
theorem population_empty_text_becomes_zero_witness :
    totalPopulationOnChange "" = some (JSNum.val 0) :=
  population_empty_text_becomes_zero.1
